import Mathlib

/-!
Verification of the positive-impact scoring engine of the cyber-good-news
repository, shallowly embedded from src/src/processors/positive_scorer.py,
src/src/models.py and src/src/config.py.

Python strings are Lean String values, Python floats are rationals, and
Python in-place mutation of a story record is modelled by returning the
updated record.  A per-record Python exception is modelled with Except:
an error value carries the state of the record at the moment the
exception was raised (in-place mutations made before the raise persist).
-/

namespace CGNews

/-- Lowercasing of a Python string (str.lower), character by character. -/
def strToLower (s : String) : String :=
  String.mk (s.data.map Char.toLower)

/-- Membership of one character sequence inside another, used to embed the
Python substring test.  An empty needle is found everywhere, as in Python. -/
def listHasSub (needle : List Char) : List Char → Bool
  | [] => needle.isEmpty
  | c :: rest => needle.isPrefixOf (c :: rest) || listHasSub needle rest

/-- Embeds the Python expression needle in haystack on str values. -/
def strHasSub (haystack needle : String) : Bool :=
  listHasSub needle.data haystack.data

/-- Python min on two floats: returns the first argument on ties. -/
def pyMin (a b : ℚ) : ℚ :=
  if a ≤ b then a else b

/-- Python max on two floats: returns the first argument on ties. -/
def pyMax (a b : ℚ) : ℚ :=
  if b ≤ a then a else b

/-- Entry of the positive_categories mapping: keyword list and base score. -/
structure CatData where
  keywords : List String
  base_score : ℚ
  deriving DecidableEq

/-- Entry of the impact_modifiers mapping: keyword list and additive delta. -/
structure ModData where
  keywords : List String
  modifier : ℚ
  deriving DecidableEq

/-- The rule lexicon held in PositiveScorer.rules.  The Python code reads the
keys with rules.get(key, default-empty), so a key missing from the loaded
YAML document is embedded as an empty list here.  Mapping iteration order in
Python dicts is insertion order, hence association lists. -/
structure ScoringRules where
  positive_categories : List (String × CatData)
  positive_signals : List String
  negative_indicators : List String
  impact_modifiers : List (String × ModData)
  deriving DecidableEq

/-- The CyberGoodNews dataclass of src/src/models.py.  description is
Optional so that the per-record failure mode (a record arriving with a
missing description, raising TypeError inside _generate_summary) is
representable; timestamps are opaque. -/
structure CyberGoodNews where
  id : Option String
  title : String
  description : Option String
  source : String
  source_url : String
  published_date : Nat
  collected_date : Nat
  category : String
  impact_score : ℚ
  summary : Option String := none
  tags : Option (List String) := none
  is_processed : Bool := false
  is_sent : Bool := false
  deriving DecidableEq

/-- Text used for a missing description in the f-string of _analyze_story:
Python formats None as the four characters None. -/
def descText : Option String → String
  | some d => d
  | none => "None"

/-- Embeds the repeated Python pattern sum(1 for kw in keywords if
kw.lower() in text): the number of keywords of the list that occur,
lower-cased, as a substring of the given text.  Each keyword of the list
contributes at most 1, however often it occurs in the text. -/
def countSignals (keywords : List String) (text : String) : Nat :=
  (keywords.filter (fun kw => strHasSub text (strToLower kw))).length

/-- The loop of PositiveScorer._categorize, carrying (best_match,
best_score, best_base) exactly as the Python locals do. -/
def categorizeFold (text : String) (acc : Option String × Nat × ℚ) :
    List (String × CatData) → Option String × Nat × ℚ
  | [] => acc
  | c :: rest =>
    let nMatches := countSignals c.2.keywords text
    if acc.2.1 < nMatches then
      categorizeFold text (some c.1, nMatches, c.2.base_score) rest
    else
      categorizeFold text acc rest

/-- PositiveScorer._categorize: best category by strict improvement over the
rule list, ('Other', 3.0) when no category has a positive match count. -/
def categorize (cats : List (String × CatData)) (text : String) : String × ℚ :=
  match categorizeFold text (none, 0, 3) cats with
  | (none, _, _) => ("Other", 3)
  | (some name, _, base) => (name, base)

/-- PositiveScorer._calculate_impact: add each modifier delta once when any
of its keywords occurs in the text. -/
def calculateImpact (modifiers : List (String × ModData)) (text : String)
    (base_score : ℚ) : ℚ :=
  modifiers.foldl
    (fun score m =>
      if m.2.keywords.any (fun kw => strHasSub text (strToLower kw)) then
        score + m.2.modifier
      else score)
    base_score

/-- Python set.add on the tag set, embedded as ordered insertion without
duplicates. -/
def addTag (tags : List String) (t : String) : List String :=
  if t ∈ tags then tags else tags ++ [t]

/-- Inner keyword loop of PositiveScorer._extract_tags.  The Bool records
whether the early return (len(tags) >= 8) fired. -/
def tagsFromKeywords (text : String) : List String → List String →
    List String × Bool
  | [], tags => (tags, false)
  | kw :: rest, tags =>
    if strHasSub text (strToLower kw) then
      let tags2 := addTag tags kw
      if 8 ≤ tags2.length then (tags2.take 8, true)
      else tagsFromKeywords text rest tags2
    else tagsFromKeywords text rest tags

/-- Outer category loop of PositiveScorer._extract_tags. -/
def tagsFromCats (text : String) : List (String × CatData) → List String →
    List String
  | [], tags => tags.take 8
  | c :: rest, tags =>
    match tagsFromKeywords text c.2.keywords tags with
    | (tags2, true) => tags2
    | (tags2, false) => tagsFromCats text rest tags2

/-- PositiveScorer._extract_tags: base tags plus category keywords occurring
in the text, capped at 8. -/
def extractTags (cats : List (String × CatData)) (text : String) :
    List String :=
  tagsFromCats text cats ["cyber-good-news", "security-positive"]

/-- PositiveScorer._get_impact_label. -/
def getImpactLabel (score : ℚ) : String :=
  if 8 ≤ score then "Outstanding"
  else if 6 ≤ score then "High"
  else if 4 ≤ score then "Moderate"
  else "Notable"

/-- description.split('.')[0][:150]: the characters before the first period,
truncated to 150 characters. -/
def firstSentenceTrunc (d : String) : String :=
  String.mk ((d.data.takeWhile (fun c => c ≠ '.')).take 150)

/-- PositiveScorer._generate_summary.  Returns none when the record has no
description: there len(story.description) raises TypeError in Python.  The
branch on the long path mirrors the truthiness test if story.description. -/
def generateSummary (s : CyberGoodNews) : Option String :=
  match s.description with
  | none => none
  | some d =>
    if d.length ≤ 200 then some d
    else
      let label := getImpactLabel s.impact_score
      let head := label ++ " impact story in \x27" ++ s.category ++
        "\x27. " ++ "Source: " ++ s.source ++ ". "
      if d = "" then some head
      else some (head ++ firstSentenceTrunc d ++ ".")

/-- Full lower-cased text of a record, built in _analyze_story by the
f-string over title and description. -/
def storyText (s : CyberGoodNews) : String :=
  strToLower (s.title ++ " " ++ descText s.description)

/-- PositiveScorer._analyze_story.  An ok result is the record after the
full update; an error result is the record as mutated up to the point where
the Python exception is raised (category, impact_score and tags are already
assigned when _generate_summary raises on a missing description). -/
def analyzeStory (rules : ScoringRules) (s : CyberGoodNews) :
    Except CyberGoodNews CyberGoodNews :=
  let text := storyText s
  let title_text := strToLower s.title
  let title_pos := countSignals rules.positive_signals title_text
  let _body_pos := countSignals rules.positive_signals text
  let title_neg := countSignals rules.negative_indicators title_text
  let neg_count := countSignals rules.negative_indicators text
  if title_pos = 0 then
    .ok { s with impact_score := 0, category := "Neutral" }
  else if title_pos < title_neg then
    .ok { s with impact_score := 0, category := "Negative" }
  else
    let cb := categorize rules.positive_categories text
    let score1 := calculateImpact rules.impact_modifiers text cb.2
    let score2 := if 0 < neg_count then score1 - (neg_count : ℚ) * (1/2) else score1
    let score3 := pyMin 10 (pyMax 0 score2)
    let s1 := { s with category := cb.1, impact_score := score3,
                       tags := some (extractTags rules.positive_categories text) }
    match generateSummary s1 with
    | some summ => .ok { s1 with summary := some summ }
    | none => .error s1

/-- Projects the record out of either outcome of analyzeStory: the state the
caller observes afterwards, whether or not the call raised. -/
def storyOf : Except CyberGoodNews CyberGoodNews → CyberGoodNews
  | .ok s => s
  | .error s => s

/-- Loop body of PositiveScorer.process_stories for one record: the record
state after the iteration and whether the record is appended to the output
list.  A raised per-record exception skips both the is_processed assignment
and the threshold test. -/
def processStory (rules : ScoringRules) (minScore : ℚ) (s : CyberGoodNews) :
    CyberGoodNews × Bool :=
  if s.is_processed then
    (s, decide (minScore ≤ s.impact_score))
  else
    match analyzeStory rules s with
    | .ok s1 =>
      let s2 := { s1 with is_processed := true }
      (s2, decide (minScore ≤ s2.impact_score))
    | .error s1 => (s1, false)

/-- PositiveScorer.process_stories.  First component: the final states of
the caller's records, in order (the Python code mutates them in place);
second component: the returned processed list. -/
def processStories (rules : ScoringRules) (minScore : ℚ) :
    List CyberGoodNews → List CyberGoodNews × List CyberGoodNews
  | [] => ([], [])
  | s :: rest =>
    let r := processStory rules minScore s
    let pr := processStories rules minScore rest
    (r.1 :: pr.1, (if r.2 then [r.1] else []) ++ pr.2)

/-- PositiveScorer._get_default_rules.  The Python dict carries only the
positive_categories key; positive_signals, negative_indicators and
impact_modifiers are absent, so every rules.get on them yields the empty
default downstream. -/
def defaultRules : ScoringRules :=
  { positive_categories :=
      [("Security Wins",
        { keywords := ["arrested", "takedown", "dismantled", "seized"],
          base_score := 7 }),
       ("Innovation & Research",
        { keywords := ["new tool", "open source", "research"],
          base_score := 6 })],
    positive_signals := [],
    negative_indicators := [],
    impact_modifiers := [] }

/-- PositiveScorer._load_scoring_rules.  The file read and YAML parse are a
boundary of the embedding: the argument none models any exception raised
while opening or parsing the external lexicon (missing file or parse
error), some r a successful parse yielding rules r.  On failure the
built-in default rule set is returned. -/
def loadScoringRules (external : Option ScoringRules) : ScoringRules :=
  match external with
  | some r => r
  | none => defaultRules

/-- Config.MIN_IMPACT_SCORE with its default value 5. -/
def MIN_IMPACT_SCORE : ℚ := 5

/-- The fields of a record that the scoring engine never writes: everything
except category, impact_score, tags, summary and is_processed. -/
def sameFrame (a b : CyberGoodNews) : Prop :=
  a.id = b.id ∧ a.title = b.title ∧ a.description = b.description ∧
  a.source = b.source ∧ a.source_url = b.source_url ∧
  a.published_date = b.published_date ∧ a.collected_date = b.collected_date ∧
  a.is_sent = b.is_sent

instance (a b : CyberGoodNews) : Decidable (sameFrame a b) := by
  unfold sameFrame; infer_instance

/-- Fixture builder: a candidate record as delivered by the collectors. -/
def mkStory (title : String) (description : Option String) : CyberGoodNews :=
  { id := some "story-1", title := title, description := description,
    source := "UnitSource", source_url := "https://example.test/a",
    published_date := 0, collected_date := 0,
    category := "Uncategorized", impact_score := 0 }

deriving instance DecidableEq for Except

/-- Fixture rule set in the shape of the shipped lexicon. -/
def rulesA : ScoringRules :=
  { positive_categories :=
      [("Security Wins",
        { keywords := ["arrested", "takedown"], base_score := 7 }),
       ("Innovation & Research",
        { keywords := ["open source", "research"], base_score := 6 })],
    positive_signals := ["arrested", "open source", "patched"],
    negative_indicators := ["breach", "ransomware"],
    impact_modifiers := [("major", { keywords := ["million"], modifier := 1 })] }

/-- Fixture rule set with a single positive signal and a single negative
indicator and no categories or modifiers. -/
def rulesB : ScoringRules :=
  { positive_categories := [],
    positive_signals := ["win"],
    negative_indicators := ["breach"],
    impact_modifiers := [] }

/-- Fixture: a record that arrives already processed, with a high score. -/
def sProcessed : CyberGoodNews :=
  { mkStory "t" (some "d") with is_processed := true, impact_score := 10 }

/-- Fixture: a record with a positive signal in the title but no
description, on which _generate_summary raises. -/
def sNoDesc : CyberGoodNews := mkStory "win" none

/-- State sNoDesc is left in when classification raises: category,
impact_score and tags already assigned, summary and is_processed not. -/
def sNoDescAfterRaise : CyberGoodNews :=
  { sNoDesc with
      category := "Other",
      impact_score := 3,
      tags := some ["cyber-good-news", "security-positive"] }

/-- Fixture: a record passing both gates whose text holds the negative
indicator of rulesB three times. -/
def sBreach : CyberGoodNews := mkStory "Win" (some "breach breach breach")

/-- Modelled from the spec: the number of occurrences of a keyword in a
text, one per starting position at which the keyword appears, so the same
keyword occurring three times counts three. -/
def specOccurrenceCount (needle haystack : String) : Nat :=
  ((List.range (haystack.data.length + 1)).filter
    (fun i => needle.data.isPrefixOf (haystack.data.drop i))).length

/-- Greatest keyword-match count over a category list for a given text. -/
def maxMatches (text : String) : List (String × CatData) → Nat
  | [] => 0
  | c :: rest => max (countSignals c.2.keywords text) (maxMatches text rest)

/-- Modelled from the spec: scan the categories in declaration order and
select the first whose match count is positive and not exceeded by any
later category (so the strictly greatest count wins and ties go to the
earlier category); when every count is zero the result is Other with base
score 3.0. -/
def specCategorize (text : String) : List (String × CatData) → String × ℚ
  | [] => ("Other", 3)
  | c :: rest =>
    let k := countSignals c.2.keywords text
    if k ≠ 0 ∧ maxMatches text rest ≤ k then (c.1, c.2.base_score)
    else specCategorize text rest

/-- Lower bound of the clamp applied at the end of _analyze_story. -/
theorem zero_le_pyClamp (x : ℚ) : 0 ≤ pyMin 10 (pyMax 0 x) := by
  unfold pyMin pyMax
  split
  · norm_num
  · split
    · norm_num
    · linarith

/-- Upper bound of the clamp applied at the end of _analyze_story. -/
theorem pyClamp_le_ten (x : ℚ) : pyMin 10 (pyMax 0 x) ≤ 10 := by
  unfold pyMin
  split
  · norm_num
  · linarith

/-- C5: a record whose lower-cased title contains zero positive-signal
keywords is classified Neutral with impact_score exactly 0, whatever its
description; no category scoring, tags or summary are produced. -/
theorem gate1_neutral_zero_score (rules : ScoringRules) (s : CyberGoodNews)
    (h : countSignals rules.positive_signals (strToLower s.title) = 0) :
    analyzeStory rules s = .ok { s with impact_score := 0, category := "Neutral" } := by
  unfold analyzeStory
  simp [h]

/-- Witness for C5 at a concrete record with no positive signal in the
title. -/
theorem gate1_neutral_witness :
    countSignals rulesA.positive_signals
      (strToLower (mkStory "Massive data breach exposes millions"
        (some "hackers stole records")).title) = 0 ∧
    analyzeStory rulesA (mkStory "Massive data breach exposes millions"
        (some "hackers stole records")) =
      .ok { mkStory "Massive data breach exposes millions"
              (some "hackers stole records") with
            impact_score := 0, category := "Neutral" } :=
  ⟨by decide, gate1_neutral_zero_score rulesA _ (by decide)⟩

/-- C6: a record whose lower-cased title has at least one positive signal
but strictly more negative-indicator matches than positive-signal matches
is classified Negative with impact_score exactly 0, with no further
scoring. -/
theorem gate2_negative_zero_score (rules : ScoringRules) (s : CyberGoodNews)
    (h1 : countSignals rules.positive_signals (strToLower s.title) ≠ 0)
    (h2 : countSignals rules.positive_signals (strToLower s.title) <
          countSignals rules.negative_indicators (strToLower s.title)) :
    analyzeStory rules s = .ok { s with impact_score := 0, category := "Negative" } := by
  unfold analyzeStory
  simp [h1, h2]

/-- Witness for C6 at a concrete record whose title holds one positive
signal and two negative indicators. -/
theorem gate2_negative_witness :
    countSignals rulesA.positive_signals
      (strToLower (mkStory "arrested amid breach and ransomware wave"
        (some "d")).title) ≠ 0 ∧
    countSignals rulesA.positive_signals
      (strToLower (mkStory "arrested amid breach and ransomware wave"
        (some "d")).title) <
      countSignals rulesA.negative_indicators
        (strToLower (mkStory "arrested amid breach and ransomware wave"
          (some "d")).title) ∧
    analyzeStory rulesA (mkStory "arrested amid breach and ransomware wave"
        (some "d")) =
      .ok { mkStory "arrested amid breach and ransomware wave" (some "d") with
            impact_score := 0, category := "Negative" } :=
  ⟨by decide, by decide,
    gate2_negative_zero_score rulesA _ (by decide) (by decide)⟩

/-- C7: whatever rule set and record classification is run on, the
impact_score it leaves on the record lies in the closed interval [0, 10],
on the gate paths, on the full-scoring path, and also when the summary
step raises. -/
theorem impact_score_clamped (rules : ScoringRules) (s : CyberGoodNews) :
    0 ≤ (storyOf (analyzeStory rules s)).impact_score ∧
    (storyOf (analyzeStory rules s)).impact_score ≤ 10 := by
  unfold analyzeStory
  by_cases h1 : countSignals rules.positive_signals (strToLower s.title) = 0
  · simp [h1, storyOf]
  · by_cases h2 : countSignals rules.positive_signals (strToLower s.title) <
        countSignals rules.negative_indicators (strToLower s.title)
    · simp [h1, h2, storyOf]
    · simp only [h1, h2, if_false, ite_false]
      rcases hg : generateSummary _ with _ | summ <;>
        simp only [hg, storyOf] <;>
        exact ⟨zero_le_pyClamp _, pyClamp_le_ten _⟩

/-- Classification leaves the frame fields of the record as they were, on
every path, raising or not. -/
theorem analyzeStory_frame (rules : ScoringRules) (s : CyberGoodNews) :
    sameFrame s (storyOf (analyzeStory rules s)) := by
  unfold analyzeStory
  by_cases h1 : countSignals rules.positive_signals (strToLower s.title) = 0
  · simp [h1, storyOf, sameFrame]
  · by_cases h2 : countSignals rules.positive_signals (strToLower s.title) <
        countSignals rules.negative_indicators (strToLower s.title)
    · simp [h1, h2, storyOf, sameFrame]
    · simp only [h1, h2, if_false, ite_false]
      rcases hg : generateSummary _ with _ | summ <;>
        simp [hg, storyOf, sameFrame]

/-- Classification that raises has not yet assigned summary or the
processed flag: the error state keeps both as they were. -/
theorem analyzeStory_error_keeps (rules : ScoringRules) (s s1 : CyberGoodNews)
    (h : analyzeStory rules s = .error s1) :
    s1.summary = s.summary ∧ s1.is_processed = s.is_processed := by
  unfold analyzeStory at h
  by_cases h1 : countSignals rules.positive_signals (strToLower s.title) = 0
  · simp [h1] at h
  · by_cases h2 : countSignals rules.positive_signals (strToLower s.title) <
        countSignals rules.negative_indicators (strToLower s.title)
    · simp [h1, h2] at h
    · simp only [h1, h2, if_false, ite_false] at h
      split at h
      · simp at h
      · simp only [Except.error.injEq] at h
        subst h
        exact ⟨rfl, rfl⟩

/-- C1 counterexample: a record already flagged is_processed with
impact_score 10 is returned by process_stories, against the claim that it
never appears in the output sequence. -/
theorem processed_record_in_output :
    sProcessed.is_processed = true ∧
    (processStories rulesA MIN_IMPACT_SCORE [sProcessed]).2 = [sProcessed] :=
  ⟨rfl, by decide⟩

/-- C1 (amended): a record whose is_processed flag is already true is not
re-classified (its state is unchanged), but it is still re-evaluated for
inclusion: it appears in the output exactly when its current impact_score
reaches the configured threshold. -/
theorem processed_record_not_reclassified (rules : ScoringRules) (m : ℚ)
    (s : CyberGoodNews) (rest : List CyberGoodNews)
    (h : s.is_processed = true) :
    processStories rules m (s :: rest) =
      (s :: (processStories rules m rest).1,
       (if m ≤ s.impact_score then [s] else []) ++
         (processStories rules m rest).2) := by
  simp only [processStories, processStory, h, if_true]
  simp

/-- Witness for the amended C1 at the concrete processed record. -/
theorem processed_record_filter_witness :
    sProcessed.is_processed = true ∧
    processStories rulesA MIN_IMPACT_SCORE [sProcessed] =
      (sProcessed :: (processStories rulesA MIN_IMPACT_SCORE []).1,
       (if MIN_IMPACT_SCORE ≤ sProcessed.impact_score then [sProcessed]
        else []) ++ (processStories rulesA MIN_IMPACT_SCORE []).2) :=
  ⟨rfl, processed_record_not_reclassified rulesA MIN_IMPACT_SCORE
    sProcessed [] rfl⟩

/-- C4 counterexample: on the record sNoDesc classification raises inside
the summary step, after category, impact_score and tags were assigned; the
record is excluded from the output but its observable state has changed,
against the claim that a failing record is left exactly as it was. -/
theorem failed_record_visibly_mutated :
    analyzeStory rulesB sNoDesc = .error sNoDescAfterRaise ∧
    (processStories rulesB MIN_IMPACT_SCORE [sNoDesc]).2 = [] ∧
    (processStories rulesB MIN_IMPACT_SCORE [sNoDesc]).1 = [sNoDescAfterRaise] ∧
    sNoDescAfterRaise.impact_score ≠ sNoDesc.impact_score ∧
    sNoDescAfterRaise.category ≠ sNoDesc.category :=
  ⟨by decide, by decide, by decide, by decide, by decide⟩

/-- C4 (amended): when classifying a record raises, the record is excluded
from the output of process and the remaining records are processed
unaffected; the failing record keeps its frame fields, its summary and its
is_processed flag, but category, impact_score and tags may already hold
partial results of the failed call. -/
theorem failed_record_excluded_rest_processed (rules : ScoringRules)
    (m : ℚ) (s s1 : CyberGoodNews) (rest : List CyberGoodNews)
    (h0 : s.is_processed = false)
    (h : analyzeStory rules s = .error s1) :
    processStories rules m (s :: rest) =
      (s1 :: (processStories rules m rest).1,
       (processStories rules m rest).2) ∧
    s1.summary = s.summary ∧ s1.is_processed = s.is_processed ∧
    sameFrame s s1 := by
  refine ⟨?_, (analyzeStory_error_keeps rules s s1 h).1,
    (analyzeStory_error_keeps rules s s1 h).2, ?_⟩
  · simp only [processStories, processStory, h0, h]
    simp
  · have := analyzeStory_frame rules s
    rwa [h] at this

/-- Witness for the amended C4 at the concrete failing record. -/
theorem failed_record_excluded_witness :
    sNoDesc.is_processed = false ∧
    analyzeStory rulesB sNoDesc = .error sNoDescAfterRaise ∧
    (processStories rulesB MIN_IMPACT_SCORE [sNoDesc] =
       (sNoDescAfterRaise :: (processStories rulesB MIN_IMPACT_SCORE []).1,
        (processStories rulesB MIN_IMPACT_SCORE []).2) ∧
     sNoDescAfterRaise.summary = sNoDesc.summary ∧
     sNoDescAfterRaise.is_processed = sNoDesc.is_processed ∧
     sameFrame sNoDesc sNoDescAfterRaise) :=
  ⟨rfl, by decide,
    failed_record_excluded_rest_processed rulesB MIN_IMPACT_SCORE
      sNoDesc sNoDescAfterRaise [] rfl (by decide)⟩

/-- On the full-scoring path the impact score is the clamp of base score
plus modifiers minus 0.5 per negative-indicator keyword present in the
text (when no negative keyword is present the code skips the subtraction,
which subtracts zero). -/
theorem analyzeStory_impact_eq (rules : ScoringRules) (s : CyberGoodNews)
    (h1 : countSignals rules.positive_signals (strToLower s.title) ≠ 0)
    (h2 : ¬ countSignals rules.positive_signals (strToLower s.title) <
          countSignals rules.negative_indicators (strToLower s.title)) :
    (storyOf (analyzeStory rules s)).impact_score =
      pyMin 10 (pyMax 0
        (calculateImpact rules.impact_modifiers (storyText s)
           (categorize rules.positive_categories (storyText s)).2 -
         (countSignals rules.negative_indicators (storyText s) : ℚ) *
           (1/2))) := by
  unfold analyzeStory
  simp only [h1, h2, if_false, ite_false]
  split <;> simp only [storyOf]
  · by_cases h3 : 0 < countSignals rules.negative_indicators (storyText s)
    · simp [h3]
    · have h0 : countSignals rules.negative_indicators (storyText s) = 0 := by
        omega
      simp [h3, h0]
  · by_cases h3 : 0 < countSignals rules.negative_indicators (storyText s)
    · simp [h3]
    · have h0 : countSignals rules.negative_indicators (storyText s) = 0 := by
        omega
      simp [h3, h0]

/-- C2 counterexample: on sBreach the negative keyword occurs three times
in the text, yet the scorer subtracts 0.5 only once: the final score is
5/2, not the 3/2 that 0.5 per occurrence would give. -/
theorem penalty_counts_keywords_not_occurrences :
    specOccurrenceCount "breach" (storyText sBreach) = 3 ∧
    countSignals rulesB.negative_indicators (storyText sBreach) = 1 ∧
    (storyOf (analyzeStory rulesB sBreach)).impact_score = 5/2 ∧
    ((3 : ℚ) - (1/2) * 3 ≠ 5/2) := by
  refine ⟨by decide, by decide, ?_, by norm_num⟩
  have hf := analyzeStory_impact_eq rulesB sBreach (by decide) (by decide)
  have e1 : categorize rulesB.positive_categories (storyText sBreach) =
      ("Other", 3) := by decide
  have e2 : calculateImpact rulesB.impact_modifiers (storyText sBreach)
      (3 : ℚ) = 3 := by decide
  have e3 : countSignals rulesB.negative_indicators (storyText sBreach) = 1 := by
    decide
  rw [hf, e1, e3]
  rw [show (("Other", (3:ℚ)).2 : ℚ) = 3 from rfl, e2]
  norm_num [pyMin, pyMax]

/-- C2 (amended): for a record passing both gates the scorer subtracts 0.5
for each negative-indicator keyword of the rule list that occurs in the
full lower-cased title+description text, each keyword counted at most
once however often it occurs (the signal count never exceeds the length
of the keyword list). -/
theorem negative_penalty_once_per_keyword :
    (∀ (rules : ScoringRules) (s : CyberGoodNews),
      countSignals rules.positive_signals (strToLower s.title) ≠ 0 →
      ¬ countSignals rules.positive_signals (strToLower s.title) <
          countSignals rules.negative_indicators (strToLower s.title) →
      (storyOf (analyzeStory rules s)).impact_score =
        pyMin 10 (pyMax 0
          (calculateImpact rules.impact_modifiers (storyText s)
             (categorize rules.positive_categories (storyText s)).2 -
           (countSignals rules.negative_indicators (storyText s) : ℚ) *
             (1/2)))) ∧
    (∀ (kws : List String) (t : String), countSignals kws t ≤ kws.length) :=
  ⟨analyzeStory_impact_eq,
   fun kws t =>
     List.length_filter_le (fun kw => strHasSub t (strToLower kw)) kws⟩

/-- Witness for the amended C2 at the concrete record sBreach. -/
theorem negative_penalty_witness :
    (storyOf (analyzeStory rulesB sBreach)).impact_score =
      pyMin 10 (pyMax 0
        (calculateImpact rulesB.impact_modifiers (storyText sBreach)
           (categorize rulesB.positive_categories (storyText sBreach)).2 -
         (countSignals rulesB.negative_indicators (storyText sBreach) : ℚ) *
           (1/2))) :=
  negative_penalty_once_per_keyword.1 rulesB sBreach (by decide) (by decide)

/-- C3 counterexample: the built-in default rule set returned on a load
failure has empty positive_signals and negative_indicators keyword lists,
so downstream components do observe empty keyword lists for these. -/
theorem default_rules_lack_signal_lists :
    (loadScoringRules none).positive_signals = [] ∧
    (loadScoringRules none).negative_indicators = [] :=
  ⟨rfl, rfl⟩

/-- C3 (amended): any load failure yields the built-in default rule set,
which holds two categories, each with a non-empty keyword list, but whose
positive-signal and negative-indicator keyword lists are empty. -/
theorem load_failure_returns_default :
    loadScoringRules none = defaultRules ∧
    defaultRules.positive_categories.length = 2 ∧
    defaultRules.positive_categories.all
      (fun c => !c.2.keywords.isEmpty) = true ∧
    defaultRules.positive_signals = [] ∧
    defaultRules.negative_indicators = [] :=
  ⟨rfl, rfl, rfl, rfl, rfl⟩

/-- Adding a tag keeps every tag already present. -/
theorem mem_addTag (tags : List String) (t x : String) (hx : x ∈ tags) :
    x ∈ addTag tags t := by
  unfold addTag
  split
  · exact hx
  · exact List.mem_append_left _ hx

/-- Adding a tag grows the set by at most one member. -/
theorem addTag_length_le (tags : List String) (t : String) :
    (addTag tags t).length ≤ tags.length + 1 := by
  unfold addTag
  split
  · omega
  · simp

/-- Invariant of the inner keyword loop of _extract_tags: entered with at
most 7 tags it returns at most 8, at most 7 when the early return did not
fire, and never drops a tag it was given. -/
theorem tagsFromKeywords_inv (text : String) :
    ∀ (kws : List String) (tags : List String), tags.length ≤ 7 →
      (tagsFromKeywords text kws tags).1.length ≤ 8 ∧
      ((tagsFromKeywords text kws tags).2 = false →
        (tagsFromKeywords text kws tags).1.length ≤ 7) ∧
      (∀ x ∈ tags, x ∈ (tagsFromKeywords text kws tags).1) := by
  intro kws
  induction kws with
  | nil =>
    intro tags h7
    refine ⟨by simpa [tagsFromKeywords] using Nat.le_succ_of_le h7, ?_, ?_⟩
    · intro _
      simpa [tagsFromKeywords] using h7
    · intro x hx
      simpa [tagsFromKeywords] using hx
  | cons kw rest ih =>
    intro tags h7
    by_cases hc : strHasSub text (strToLower kw)
    · by_cases h8 : 8 ≤ (addTag tags kw).length
      · have hlen : (addTag tags kw).length ≤ 8 :=
          le_trans (addTag_length_le tags kw) (by omega)
      -- early return fires and hands back the whole 8-member set
        have htake : (addTag tags kw).take 8 = addTag tags kw :=
          List.take_of_length_le hlen
        refine ⟨?_, ?_, ?_⟩
        · simp [tagsFromKeywords, hc, h8, htake, hlen]
        · intro hfalse
          simp [tagsFromKeywords, hc, h8] at hfalse
        · intro x hx
          simp only [tagsFromKeywords, hc, if_true, h8, htake]
          exact mem_addTag tags kw x hx
      · have h7n : (addTag tags kw).length ≤ 7 := by
          have := addTag_length_le tags kw
          omega
        have ihr := ih (addTag tags kw) h7n
        refine ⟨?_, ?_, ?_⟩
        · simpa [tagsFromKeywords, hc, h8] using ihr.1
        · intro hfalse
          simp only [tagsFromKeywords, hc, if_true, h8, ite_false] at hfalse ⊢
          exact ihr.2.1 hfalse
        · intro x hx
          simp only [tagsFromKeywords, hc, if_true, h8, ite_false]
          exact ihr.2.2 x (mem_addTag tags kw x hx)
    · have ihr := ih tags h7
      refine ⟨?_, ?_, ?_⟩
      · simpa [tagsFromKeywords, hc] using ihr.1
      · intro hfalse
        simp only [tagsFromKeywords, hc, ite_false] at hfalse ⊢
        exact ihr.2.1 hfalse
      · intro x hx
        simp only [tagsFromKeywords, hc, ite_false]
        exact ihr.2.2 x hx

/-- Invariant of the outer category loop of _extract_tags: entered with at
most 7 tags it returns at most 8 and keeps every tag it was given. -/
theorem tagsFromCats_inv (text : String) :
    ∀ (cats : List (String × CatData)) (tags : List String),
      tags.length ≤ 7 →
      (tagsFromCats text cats tags).length ≤ 8 ∧
      (∀ x ∈ tags, x ∈ tagsFromCats text cats tags) := by
  intro cats
  induction cats with
  | nil =>
    intro tags h7
    constructor
    · simp [tagsFromCats]
    · intro x hx
      have : tags.take 8 = tags := List.take_of_length_le (by omega)
      simpa [tagsFromCats, this] using hx
  | cons c rest ih =>
    intro tags h7
    have hk := tagsFromKeywords_inv text c.2.keywords tags h7
    rcases hkw : tagsFromKeywords text c.2.keywords tags with ⟨tags2, done⟩
    rw [hkw] at hk
    cases done with
    | true =>
      constructor
      · simpa [tagsFromCats, hkw] using hk.1
      · intro x hx
        simpa [tagsFromCats, hkw] using hk.2.2 x hx
    | false =>
      have h7n : tags2.length ≤ 7 := hk.2.1 rfl
      have ihr := ih tags2 h7n
      constructor
      · simpa [tagsFromCats, hkw] using ihr.1
      · intro x hx
        simp only [tagsFromCats, hkw]
        exact ihr.2 x (hk.2.2 x hx)

/-- C8: the tag generator always returns at most 8 tags and always keeps
the two base tags, and whenever classification proceeds past both gates
the record's tag set is exactly the generator's output on the full text,
so it contains both base tags. -/
theorem tags_bounded_with_base_tags :
    (∀ (cats : List (String × CatData)) (text : String),
      (extractTags cats text).length ≤ 8 ∧
      "cyber-good-news" ∈ extractTags cats text ∧
      "security-positive" ∈ extractTags cats text) ∧
    (∀ (rules : ScoringRules) (s : CyberGoodNews),
      countSignals rules.positive_signals (strToLower s.title) ≠ 0 →
      ¬ countSignals rules.positive_signals (strToLower s.title) <
          countSignals rules.negative_indicators (strToLower s.title) →
      (storyOf (analyzeStory rules s)).tags =
        some (extractTags rules.positive_categories (storyText s))) := by
  constructor
  · intro cats text
    have h := tagsFromCats_inv text cats
      ["cyber-good-news", "security-positive"] (by simp)
    refine ⟨h.1, ?_, ?_⟩
    · exact h.2 _ (by simp)
    · exact h.2 _ (by simp)
  · intro rules s h1 h2
    unfold analyzeStory
    simp only [h1, h2, if_false, ite_false]
    split <;> simp [storyOf]

/-- Witness for C8 at a concrete record past both gates. -/
theorem tags_bounded_witness :
    (storyOf (analyzeStory rulesB sBreach)).tags =
      some (extractTags rulesB.positive_categories (storyText sBreach)) :=
  tags_bounded_with_base_tags.2 rulesB sBreach (by decide) (by decide)

/-- The _categorize loop ignores the rest of the list once its running
best score already matches every remaining count. -/
theorem categorizeFold_stay (text : String) :
    ∀ (l : List (String × CatData)) (om : Option String) (bs : Nat) (bb : ℚ),
      maxMatches text l ≤ bs →
      categorizeFold text (om, bs, bb) l = (om, bs, bb) := by
  intro l
  induction l with
  | nil => intro om bs bb _; rfl
  | cons c rest ih =>
    intro om bs bb h
    have hk : ¬ bs < countSignals c.2.keywords text := by
      simp only [maxMatches, max_le_iff] at h
      omega
    simp only [categorizeFold, hk, ite_false]
    exact ih om bs bb (by simp only [maxMatches, max_le_iff] at h; omega)

/-- While some remaining count still beats the running best score, the
final state of the _categorize loop does not depend on the accumulator. -/
theorem categorizeFold_indep (text : String) :
    ∀ (l : List (String × CatData)) (om : Option String) (bs : Nat) (bb : ℚ)
      (om2 : Option String) (bs2 : Nat) (bb2 : ℚ),
      bs < maxMatches text l → bs2 < maxMatches text l →
      categorizeFold text (om, bs, bb) l =
        categorizeFold text (om2, bs2, bb2) l := by
  intro l
  induction l with
  | nil =>
    intro om bs bb om2 bs2 bb2 h _
    simp [maxMatches] at h
  | cons c rest ih =>
    intro om bs bb om2 bs2 bb2 h h2
    simp only [maxMatches] at h h2
    by_cases hb : bs < countSignals c.2.keywords text <;>
      by_cases hb2 : bs2 < countSignals c.2.keywords text <;>
        simp only [categorizeFold, hb, hb2, if_true, ite_false] <;>
        exact ih _ _ _ _ _ _ (by omega) (by omega)

/-- When every category count is zero the loop keeps its initial state. -/
theorem maxMatches_zero_of_all_zero (text : String)
    (cats : List (String × CatData))
    (h : ∀ c ∈ cats, countSignals c.2.keywords text = 0) :
    maxMatches text cats = 0 := by
  induction cats with
  | nil => rfl
  | cons c rest ih =>
    simp only [maxMatches, Nat.max_eq_zero_iff]
    exact ⟨h c (by simp), ih (fun d hd => h d (List.mem_cons_of_mem c hd))⟩

/-- C9: _categorize selects the category with the strictly greatest match
count over the full text, ties resolved in favour of the category declared
earlier in the rule mapping, and returns Other with base score 3.0 when
every category has zero matches. -/
theorem categorize_first_max_or_other :
    (∀ (cats : List (String × CatData)) (text : String),
      categorize cats text = specCategorize text cats) ∧
    (∀ (cats : List (String × CatData)) (text : String),
      (∀ c ∈ cats, countSignals c.2.keywords text = 0) →
      categorize cats text = ("Other", 3)) := by
  have main : ∀ (text : String) (cats : List (String × CatData)),
      categorize cats text = specCategorize text cats := by
    intro text cats
    induction cats with
    | nil => rfl
    | cons c rest ih =>
      by_cases hk : countSignals c.2.keywords text = 0
      · have h0 : ¬ (0 : Nat) < countSignals c.2.keywords text := by omega
        simp only [categorize, categorizeFold, h0, ite_false,
          specCategorize, hk, ne_eq, not_true_eq_false, false_and, if_false]
        exact ih
      · by_cases hm : maxMatches text rest ≤ countSignals c.2.keywords text
        · have h0 : (0 : Nat) < countSignals c.2.keywords text := by omega
          simp only [categorize, categorizeFold, h0, if_true,
            specCategorize, hk, ne_eq, not_false_eq_true, hm, and_self,
            if_true]
          rw [categorizeFold_stay text rest _ _ _ hm]
        · have h0 : (0 : Nat) < countSignals c.2.keywords text := by omega
          have hlt : countSignals c.2.keywords text < maxMatches text rest := by
            omega
          simp only [categorize, categorizeFold, h0, if_true,
            specCategorize, hk, ne_eq, not_false_eq_true, hm, and_false,
            if_false]
          rw [categorizeFold_indep text rest _ _ _ none 0 3 hlt (by omega)]
          exact ih
  constructor
  · intro cats text
    exact main text cats
  · intro cats text hz
    have h0 : maxMatches text cats ≤ 0 :=
      le_of_eq (maxMatches_zero_of_all_zero text cats hz)
    unfold categorize
    rw [categorizeFold_stay text cats none 0 3 h0]

/-- Witness for C9 at a concrete category list and a text matching no
category keyword. -/
theorem categorize_other_witness :
    categorize rulesA.positive_categories "quiet day at the office" =
      ("Other", 3) :=
  categorize_first_max_or_other.2 rulesA.positive_categories
    "quiet day at the office" (by decide)

/-- One iteration of the process_stories loop leaves the frame fields of
the record unchanged, whether it skips, classifies or catches a raise. -/
theorem processStory_frame (rules : ScoringRules) (m : ℚ)
    (s : CyberGoodNews) : sameFrame s (processStory rules m s).1 := by
  unfold processStory
  by_cases hp : s.is_processed
  · simp [hp, sameFrame]
  · have hf := analyzeStory_frame rules s
    cases hr : analyzeStory rules s with
    | error s1 =>
      rw [hr] at hf
      simp only [storyOf] at hf
      simpa only [hp, ite_false, hr, Bool.false_eq_true, if_false] using hf
    | ok s1 =>
      rw [hr] at hf
      simp only [storyOf] at hf
      simp only [hp, ite_false, hr, Bool.false_eq_true, if_false]
      simp only [sameFrame] at hf ⊢
      simpa using hf

/-- C10: classification writes only category, impact_score, tags, summary
and is_processed: the classifier leaves the frame fields (id, title,
description, source, source_url, published_date, collected_date, is_sent)
of its record unchanged on every path, process leaves them unchanged on
every record of its input, and every record of the output sequence keeps
the frame fields of an input record. -/
theorem classify_frame_preservation :
    (∀ (rules : ScoringRules) (s : CyberGoodNews),
      sameFrame s (storyOf (analyzeStory rules s))) ∧
    (∀ (rules : ScoringRules) (m : ℚ) (l : List CyberGoodNews),
      List.Forall₂ sameFrame l (processStories rules m l).1) ∧
    (∀ (rules : ScoringRules) (m : ℚ) (l : List CyberGoodNews),
      ∀ s2 ∈ (processStories rules m l).2, ∃ s ∈ l, sameFrame s s2) := by
  refine ⟨analyzeStory_frame, ?_, ?_⟩
  · intro rules m l
    induction l with
    | nil => simp [processStories]
    | cons s rest ih =>
      simp only [processStories]
      exact List.Forall₂.cons (processStory_frame rules m s) ih
  · intro rules m l
    induction l with
    | nil => simp [processStories]
    | cons s rest ih =>
      intro s2 hs2
      simp only [processStories] at hs2
      rcases List.mem_append.mp hs2 with h | h
      · by_cases hb : (processStory rules m s).2 <;> simp [hb] at h
        subst h
        exact ⟨s, List.mem_cons_self s rest, processStory_frame rules m s⟩
      · rcases ih s2 h with ⟨s0, hs0, hf⟩
        exact ⟨s0, List.mem_cons_of_mem _ hs0, hf⟩

/-- Witness for C10: the processed fixture record appears in the output of
process with its frame fields preserved. -/
theorem classify_frame_witness :
    ∃ s ∈ [sProcessed], sameFrame s sProcessed :=
  classify_frame_preservation.2.2 rulesA MIN_IMPACT_SCORE [sProcessed]
    sProcessed (by decide)

end CGNews
